import Mathlib

/-!
Verification of the book-generation pipeline of `ScientificGenerator.py`.

The development shallowly embeds the pipeline: every service interaction is
replaced by an explicit response value (a `String`; the empty string is the
request layer's declared failure result, exactly as `_make_request` returns
`""` after exhausting its retries), and the stateful orchestration loop of
`generate_book` becomes explicit state passing over an `oracle : Nat → String`
giving the response to the n-th service request of the run.

Python string operations are modelled on character lists so that every
definition is executable by the kernel:
`s.split('\n')` becomes `splitNl`, `s.strip()` becomes `strTrim`,
`s.startswith(p)` becomes `strStarts`, `s.replace(p, r)` becomes `replaceAll`,
`s[-n:]` becomes `sliceLast`, and `s[:n]` becomes `sliceFirst`.
-/

set_option linter.unusedVariables false

namespace ScientificGenerator

/-- Helper for `splitNl`: accumulates the current line (reversed) while
scanning the character list, cutting at every newline character, mirroring
Python `str.split('\n')`. -/
def splitNlAux : List Char → List Char → List (List Char)
  | [], cur => [cur.reverse]
  | c :: cs, cur =>
      if c = '\n' then cur.reverse :: splitNlAux cs [] else splitNlAux cs (c :: cur)

/-- Python `s.split('\n')`: split on every newline; `""` yields `[""]`. -/
def splitNl (s : String) : List String := (splitNlAux s.data []).map String.mk

/-- Python `s.strip()`: drop whitespace from both ends of the string. -/
def strTrim (s : String) : String :=
  String.mk (((s.data.dropWhile Char.isWhitespace).reverse.dropWhile Char.isWhitespace).reverse)

/-- Helper for `strStarts`: does the first list start with the second? -/
def listStarts : List Char → List Char → Bool
  | _, [] => true
  | [], _ :: _ => false
  | c :: cs, d :: ds => c = d && listStarts cs ds

/-- Python `s.startswith(p)`. -/
def strStarts (s p : String) : Bool := listStarts s.data p.data

/-- Helper for `replaceAll`, structurally recursive on an explicit fuel
(initialised to the length of the scanned list, which suffices since every
step consumes at least one character): replaces every non-overlapping
occurrence of `pat`, left to right. -/
def replaceAllAux (pat rep : List Char) : Nat → List Char → List Char
  | 0, l => l
  | _ + 1, [] => []
  | fuel + 1, c :: cs =>
      if listStarts (c :: cs) pat && !pat.isEmpty then
        rep ++ replaceAllAux pat rep fuel (List.drop pat.length (c :: cs))
      else
        c :: replaceAllAux pat rep fuel cs

/-- Python `s.replace(pat, rep)` for a non-empty pattern: replace every
non-overlapping occurrence, scanning left to right. -/
def replaceAll (s pat rep : String) : String :=
  String.mk (replaceAllAux pat.data rep.data s.data.length s.data)

/-- Python `s[-n:]` (for `n > 0`): the trailing at most `n` characters. -/
def sliceLast (s : String) (n : Nat) : String :=
  String.mk (s.data.drop (s.data.length - n))

/-- Python `s[:n]`: the leading at most `n` characters. -/
def sliceFirst (s : String) (n : Nat) : String := String.mk (s.data.take n)

/-- Concatenation of a list of strings in order; models a sequence of
`f.write(...)` calls emitting into one file. -/
def strConcat : List String → String
  | [] => ""
  | s :: rest => s ++ strConcat rest

/-!
### Request layer (`BookGenerator._make_request`, lines 281-320)

One attempt outcome is `some t` for an HTTP 200 response with payload `t`,
and `none` for a bad status code or a raised exception (both are caught and
logged by the source).  `runAttempts` consumes the per-attempt outcomes in
order and returns the result together with the number of attempts made and
the number of `time.sleep(retry_delay)` calls executed: the source sleeps
after a failed attempt exactly when further attempts remain
(`attempt < max_retries - 1`), and returns `""` when all attempts fail.
-/

/-- The retry loop body of `_make_request` over a list of attempt outcomes:
returns (result, attempts made, sleeps executed). -/
def runAttempts : List (Option String) → String × Nat × Nat
  | [] => ("", 0, 0)
  | some t :: _ => (t, 1, 0)
  | none :: rest =>
      let r := runAttempts rest
      (r.1, r.2.1 + 1, if rest.isEmpty then r.2.2 else r.2.2 + 1)

/-- `_make_request(prompt, max_retries, retry_delay)`: the loop iterates over
`range(max_retries)`, with `attempts i` the outcome of the i-th attempt. -/
def make_request_run (attempts : Nat → Option String) (max_retries : Nat) :
    String × Nat × Nat :=
  runAttempts ((List.range max_retries).map attempts)

/-- The value `_make_request` hands back to its caller. -/
def make_request (attempts : Nat → Option String) (max_retries : Nat) : String :=
  (make_request_run attempts max_retries).1

/-!
### Stage generators

Each stage function takes the inputs of the corresponding Python method plus
one explicit `resp` parameter per `_make_request` call the method performs
(`resp = ""` is precisely the request layer's failure result, which is the
only falsy value `str` has here).  Parameters that enter only the prompt text
are kept for signature fidelity even though they cannot influence the value
returned.
-/

/-- The shared post-processing `[line.strip() for line in response.split('\n')
if line.strip()]`: split on newlines, strip, drop blank lines. -/
def splitClean (s : String) : List String :=
  ((splitNl s).map strTrim).filter (fun l => l ≠ "")

/-- `BookGenerator.generate_outline` (lines 23-65): `resp1` is the response to
the first outline request, `resp2` the response to the supplemental request
(consulted only when the first response is non-empty and under-length). -/
def generate_outline (topic : String) (num_chapters : Nat) (resp1 resp2 : String) :
    List String :=
  if resp1 ≠ "" then
    let chapters := splitClean resp1
    if chapters.length > num_chapters then
      chapters.take num_chapters
    else if chapters.length < num_chapters then
      if resp2 ≠ "" then
        chapters ++ (splitClean resp2).take (num_chapters - chapters.length)
      else chapters
    else chapters
  else []

/-- The context block built at line 78 of `generate_chapter_structure`. -/
def structure_context (previous_summary : String) : String :=
  if previous_summary ≠ "" then
    "Summary of the previous chapter: " ++ previous_summary ++ "\n"
  else ""

/-- `BookGenerator.generate_chapter_structure` (lines 67-96); on request
failure it returns the fixed three-entry structure of line 96. -/
def generate_chapter_structure (chapter_title previous_summary resp : String) :
    List String :=
  if resp ≠ "" then splitClean resp
  else ["Introduction", "Main Content", "Conclusion"]

/-- The context block built at line 110 of `generate_chapter_chunk`: embeds
the trailing 500 characters of `previous_content` into the prompt. -/
def chunk_context (previous_content : String) : String :=
  if previous_content ≠ "" then
    "Previous content: " ++ sliceLast previous_content 500 ++ " (continuation)"
  else ""

/-- `BookGenerator.generate_chapter_chunk` (lines 98-127): returns the
request result unchanged (no fallback). -/
def generate_chapter_chunk (chapter_title section_title previous_content resp : String) :
    String := resp

/-- `BookGenerator.summarize_chapter` (lines 129-151): the prompt embeds
`chapter_content[:3000]`; the request result is returned unchanged. -/
def summarize_chapter (chapter_content resp : String) : String := resp

/-- `BookGenerator.generate_introduction` (lines 198-224): returns the
request result unchanged. -/
def generate_introduction (topic title resp : String) : String := resp

/-- `BookGenerator.generate_conclusion` (lines 226-252): returns the
request result unchanged. -/
def generate_conclusion (topic title resp : String) : String := resp

/-- `BookGenerator.generate_bibliography` (lines 254-279): split the response
into non-blank stripped lines; empty list on request failure. -/
def generate_bibliography (topic resp : String) : List String :=
  if resp ≠ "" then splitClean resp else []

/-- The metadata dictionary of `generate_metadata`; the Python key
`"annotation"` is rendered as the field `annot`. -/
structure Metadata where
  title : String
  author : String
  annot : String
deriving DecidableEq

/-- The dictionary initialised at line 180 before parsing:
`{"title": f"Book on {topic}", "author": "Author Not Specified",
"annotation": ""}`. -/
def default_metadata (topic : String) : Metadata :=
  { title := "Book on " ++ topic, author := "Author Not Specified", annot := "" }

/-- One iteration of the parsing loop of `generate_metadata` (lines 184-194):
a line starting with a known label sets that field to the line with the label
removed and whitespace stripped; any other line is appended to the running
annotation, but only when the annotation is already non-empty (the Python
guard `if metadata["annotation"]:` at line 193). -/
def metadata_step (m : Metadata) (line : String) : Metadata :=
  if strStarts line "Title:" then
    { m with title := strTrim (replaceAll line "Title:" "") }
  else if strStarts line "Author:" then
    { m with author := strTrim (replaceAll line "Author:" "") }
  else if strStarts line "Annotation:" then
    { m with annot := strTrim (replaceAll line "Annotation:" "") }
  else if m.annot ≠ "" then
    { m with annot := m.annot ++ " " ++ strTrim line }
  else m

/-- `BookGenerator.generate_metadata` (lines 153-196): parse
`response.strip().split('\n')` line by line over the defaults. -/
def generate_metadata (topic resp : String) : Metadata :=
  if resp ≠ "" then
    (splitNl (strTrim resp)).foldl metadata_step (default_metadata topic)
  else default_metadata topic

/-!
### Orchestrator (`BookGenerator.generate_book`, lines 322-469)

The run is driven by an `oracle : Nat → String` giving the result of the
n-th `_make_request` call of the run (the empty string again standing for
total request failure); a counter `k` of requests already made is threaded
through the stages in program order.
-/

/-- The outline stage as executed inside `generate_book`: the first request
consumes index `k`; the supplemental request (index `k + 1`) is made exactly
when the first response is non-empty and yields fewer than `num_chapters`
non-blank lines.  Returns the outline and the next free request index. -/
def generate_outline_run (oracle : Nat → String) (topic : String)
    (num_chapters k : Nat) : List String × Nat :=
  let r1 := oracle k
  let used := if r1 ≠ "" ∧ (splitClean r1).length < num_chapters then 2 else 1
  (generate_outline topic num_chapters r1 (oracle (k + 1)), k + used)

/-- Record of one section iteration of the inner loop (lines 395-409):
`ctxArg` is the `previous_content` value computed at line 399 and passed to
`generate_chapter_chunk`; `text` is the generated section content. -/
structure SectionRecord where
  ctxArg : String
  text : String
deriving DecidableEq

/-- Record of one chapter iteration of the outer loop (lines 377-417):
`structureArg` is the `previous_summary` value passed to
`generate_chapter_structure` at line 384, `sections` the resulting chapter
structure, `content` the accumulated `full_chapter_content`, and `summary`
the response of `summarize_chapter` at line 412. -/
structure ChapterRecord where
  structureArg : String
  sections : List String
  sectionRecords : List SectionRecord
  content : String
  summary : String
deriving DecidableEq

/-- Placeholder record used with `List.getD` when indexing section records. -/
def dummySection : SectionRecord := { ctxArg := "", text := "" }

/-- Placeholder record used with `List.getD` when indexing chapter records. -/
def dummyChapter : ChapterRecord :=
  { structureArg := "", sections := [], sectionRecords := [], content := "", summary := "" }

/-- Line 399: `previous_content = full_chapter_content[-1000:] if
full_chapter_content else ""` — the argument the orchestrator passes into
each section-content call. -/
def previous_content_arg (full_chapter_content : String) : String :=
  if full_chapter_content ≠ "" then sliceLast full_chapter_content 1000 else ""

/-- The per-section loop of lines 395-409: `acc` is `full_chapter_content`;
each section consumes one request.  The `previous_content` argument is the
trailing 1000 characters of the accumulated text (line 399), and the chunk
prompt then embeds its trailing 500 characters (line 110).  Returns the
section records, the final accumulated content and the next request index. -/
def runSections (oracle : Nat → String) (chapter_title : String) :
    List String → String → Nat → List SectionRecord × String × Nat
  | [], acc, k => ([], acc, k)
  | sec :: rest, acc, k =>
      let previous_content := previous_content_arg acc
      let text := generate_chapter_chunk chapter_title sec previous_content (oracle k)
      let r := runSections oracle chapter_title rest (acc ++ text) (k + 1)
      ({ ctxArg := previous_content, text := text } :: r.1, r.2)

/-- One iteration of the chapter loop (lines 377-417): structure request,
section loop started from the empty accumulator (line 394), then the
chapter-summary request. -/
def runChapter (oracle : Nat → String) (title previous_summary : String) (k : Nat) :
    ChapterRecord × Nat :=
  let sections := generate_chapter_structure title previous_summary (oracle k)
  let r := runSections oracle title sections "" (k + 1)
  let summary := summarize_chapter r.2.1 (oracle r.2.2)
  ({ structureArg := previous_summary, sections := sections, sectionRecords := r.1,
     content := r.2.1, summary := summary }, r.2.2 + 1)

/-- The chapter loop of `generate_book`: `previous_summary` is the loop
variable initialised to `""` at line 376 and overwritten with the current
chapter's summary at line 412 — the only state carried between chapters. -/
def runChapters (oracle : Nat → String) :
    List String → String → Nat → List ChapterRecord × Nat
  | [], _, k => ([], k)
  | t :: rest, previous_summary, k =>
      let c := runChapter oracle t previous_summary k
      let r := runChapters oracle rest c.1.summary c.2
      (c.1 :: r.1, r.2)

/-!
### Book aggregate and assembly (lines 434-464)

`full_book.md` is produced by a sequence of `f.write` calls; `fullBookWrites`
lists those writes in program order and `assemble` concatenates them.  The
chapter blocks reproduce the content of each `full_chapter.md` file (written
at lines 415-417 as a `# Chapter {i}: {title}` heading plus the accumulated
chapter content), which the assembly loop reads back and emits followed by a
blank line.
-/

/-- The book aggregate at the end of a run; `chapterTexts` are the
accumulated `full_chapter_content` values, in outline order.  The Python key
`"annotation"` is rendered as `annot`. -/
structure Book where
  title : String
  author : String
  annot : String
  introduction : String
  chapterTitles : List String
  chapterTexts : List String
  conclusion : String
  bibliography : List String
deriving DecidableEq

/-- Content of `chapter_{i:02d}/full_chapter.md` (lines 415-417). -/
def chapterBlock (i : Nat) (title text : String) : String :=
  "# Chapter " ++ toString i ++ ": " ++ title ++ "\n\n" ++ text

/-- The chapter-loop writes of lines 447-454: each chapter file's content
followed by a blank line, numbering the chapters from `i` upwards. -/
def chapterBlocks : Nat → List String → List String → List String
  | _, [], _ => []
  | _, _ :: _, [] => []
  | i, t :: ts, x :: xs => (chapterBlock i t x ++ "\n\n") :: chapterBlocks (i + 1) ts xs

/-- The bibliography writes of lines 463-464: `f"{i}. {ref}\n"` numbering the
entries from `i` upwards. -/
def numberedRefs : Nat → List String → List String
  | _, [] => []
  | i, r :: rest => (toString i ++ ". " ++ r ++ "\n") :: numberedRefs (i + 1) rest

/-- The `f.write` calls of lines 435-464 producing `full_book.md`, in program
order. -/
def fullBookWrites (b : Book) : List String :=
  ["# " ++ b.title ++ "\n\n",
   "**Author:** " ++ b.author ++ "\n\n",
   "**Annotation:**\n\n" ++ b.annot ++ "\n\n",
   "# Introduction\n\n",
   b.introduction,
   "\n\n"]
  ++ chapterBlocks 1 b.chapterTitles b.chapterTexts
  ++ ["# Conclusion\n\n", b.conclusion, "\n\n", "# Bibliography\n\n"]
  ++ numberedRefs 1 b.bibliography

/-- The full-book artifact: the concatenation of the write sequence. -/
def assemble (b : Book) : String := strConcat (fullBookWrites b)

/-- Title page of the assembled document (spec order: title, author,
annotation). -/
def titlePage (b : Book) : String :=
  "# " ++ b.title ++ "\n\n" ++ ("**Author:** " ++ b.author ++ "\n\n") ++
    ("**Annotation:**\n\n" ++ b.annot ++ "\n\n")

/-- Introduction part of the assembled document. -/
def introPart (b : Book) : String := "# Introduction\n\n" ++ (b.introduction ++ "\n\n")

/-- Chapters part of the assembled document: chapter blocks in outline
order, numbered from 1. -/
def chaptersPart (b : Book) : String := strConcat (chapterBlocks 1 b.chapterTitles b.chapterTexts)

/-- Conclusion part of the assembled document. -/
def conclusionPart (b : Book) : String := "# Conclusion\n\n" ++ (b.conclusion ++ "\n\n")

/-- Bibliography part of the assembled document: entries numbered
consecutively from 1. -/
def biblioPart (b : Book) : String :=
  "# Bibliography\n\n" ++ strConcat (numberedRefs 1 b.bibliography)

/-- Result of one full `generate_book` run. -/
structure BookRun where
  chapters : List String
  metadata : Metadata
  introduction : String
  chapterRecords : List ChapterRecord
  conclusion : String
  bibliography : List String
  book : Book
  fullBook : String

/-- `BookGenerator.generate_book` (lines 322-469) with the filesystem and
console side effects dropped: outline, metadata, introduction, chapter loop,
conclusion, bibliography, then assembly of `full_book.md`.  Requests are
consumed from `oracle` in program order starting at index 0. -/
def generate_book (topic : String) (num_chapters : Nat) (oracle : Nat → String) :
    BookRun :=
  let o := generate_outline_run oracle topic num_chapters 0
  let chapters := o.1
  let md := generate_metadata topic (oracle o.2)
  let intro := generate_introduction topic md.title (oracle (o.2 + 1))
  let r := runChapters oracle chapters "" (o.2 + 2)
  let concl := generate_conclusion topic md.title (oracle r.2)
  let bib := generate_bibliography topic (oracle (r.2 + 1))
  let book : Book :=
    { title := md.title, author := md.author, annot := md.annot,
      introduction := intro, chapterTitles := chapters,
      chapterTexts := r.1.map (fun c => c.content), conclusion := concl,
      bibliography := bib }
  { chapters := chapters, metadata := md, introduction := intro,
    chapterRecords := r.1, conclusion := concl, bibliography := bib,
    book := book, fullBook := assemble book }

/-!
### Helper lemmas
-/

/-- `strConcat` distributes over list concatenation. -/
theorem strConcat_append (l1 l2 : List String) :
    strConcat (l1 ++ l2) = strConcat l1 ++ strConcat l2 := by
  induction l1 with
  | nil => simp [strConcat, String.empty_append]
  | cons s rest ih => simp [strConcat, ih, String.append_assoc]

/-- A string is non-empty iff its character list is. -/
theorem str_ne_empty_iff (s : String) : s ≠ "" ↔ s.data ≠ [] := by
  cases s
  simp [String.ext_iff]

/-- The trailing slice keeps at most `n` characters. -/
theorem sliceLast_data_length (s : String) (n : Nat) :
    (sliceLast s n).data.length = min n s.data.length := by
  simp [sliceLast, List.length_drop]
  omega

/-- The trailing slice is a suffix of the original character list. -/
theorem sliceLast_suffix (s : String) (n : Nat) :
    List.IsSuffix (sliceLast s n).data s.data := by
  simpa [sliceLast] using List.drop_suffix (s.data.length - n) s.data

/-- Taking the trailing 500 characters of the trailing 1000 characters is
taking the trailing 500 characters. -/
theorem drop_drop_tail (l : List Char) :
    (l.drop (l.length - 1000)).drop ((l.drop (l.length - 1000)).length - 500)
      = l.drop (l.length - 500) := by
  rw [List.drop_drop, List.length_drop]
  have h : l.length - 1000 + (l.length - (l.length - 1000) - 500) = l.length - 500 := by omega
  rw [h]

theorem str_data_inj {s t : String} (h : s.data = t.data) : s = t := by
  cases s
  cases t
  exact congrArg String.mk h

theorem sliceLast_data (s : String) (n : Nat) :
    (sliceLast s n).data = s.data.drop (s.data.length - n) := rfl

theorem sliceLast_sliceLast (s : String) :
    sliceLast (sliceLast s 1000) 500 = sliceLast s 500 := by
  apply str_data_inj
  simp only [sliceLast_data]
  exact drop_drop_tail s.data

/-- The trailing slice of a non-empty string is non-empty (for `n = 1000`). -/
theorem sliceLast_ne_empty (s : String) (h : s ≠ "") : sliceLast s 1000 ≠ "" := by
  rw [str_ne_empty_iff] at h ⊢
  intro hnil
  apply h
  have hlen : (sliceLast s 1000).data.length = min 1000 s.data.length :=
    sliceLast_data_length s 1000
  rw [hnil] at hlen
  simp only [List.length_nil] at hlen
  have hlen0 : s.data.length = 0 := by omega
  exact List.length_eq_zero.mp hlen0

/-!
### Claims about the request layer and the stage generators
-/

/-- C4: when every attempt fails, `_make_request` with `max_retries = 3`
makes exactly 3 attempts, sleeps `retry_delay` exactly twice (once between
each pair of consecutive attempts, never after the last), and returns the
empty failure result to its caller. -/
theorem make_request_exhausts_retries (attempts : Nat → Option String)
    (h : ∀ i, attempts i = none) :
    make_request_run attempts 3 = ("", 3, 2) := by
  have hmap : (List.range 3).map attempts = [none, none, none] := by
    rw [show List.range 3 = [0, 1, 2] from rfl]
    simp [h]
  rw [make_request_run, hmap]
  rfl

/-- C4 witness: the all-failing attempt sequence. -/
theorem make_request_exhausts_retries_witness :
    make_request_run (fun _ => none) 3 = ("", 3, 2) :=
  make_request_exhausts_retries (fun _ => none) (fun _ => rfl)

/-- C5: on total request failure, `generate_chapter_structure` returns
exactly the fixed list `["Introduction", "Main Content", "Conclusion"]` for
every chapter title and previous-summary input, and it is the only stage
with such a hard-coded content fallback: every other stage degrades to the
empty list, the empty string, or (for metadata) the plain field defaults. -/
theorem structure_fallback_unique :
    (∀ chapter_title previous_summary : String,
        generate_chapter_structure chapter_title previous_summary "" =
          ["Introduction", "Main Content", "Conclusion"]) ∧
    (∀ (topic : String) (num_chapters : Nat) (resp2 : String),
        generate_outline topic num_chapters "" resp2 = []) ∧
    (∀ topic : String, generate_bibliography topic "" = []) ∧
    (∀ a b c : String, generate_chapter_chunk a b c "" = "") ∧
    (∀ a : String, summarize_chapter a "" = "") ∧
    (∀ a b : String, generate_introduction a b "" = "") ∧
    (∀ a b : String, generate_conclusion a b "" = "") ∧
    (∀ topic : String, generate_metadata topic "" = default_metadata topic) := by
  refine ⟨fun _ _ => by simp [generate_chapter_structure],
    fun _ _ _ => by simp [generate_outline],
    fun _ => by simp [generate_bibliography],
    fun _ _ _ => rfl, fun _ => rfl, fun _ _ => rfl, fun _ _ => rfl,
    fun _ => by simp [generate_metadata]⟩

/-- C6: the labeled-line response `"Title: X\nAuthor: Y\nAnnotation: Z"`
parses to title `X`, author `Y`, annotation `Z` (label removed, whitespace
stripped); when the Author line is absent the author is the default
`"Author Not Specified"`, when the Title line is absent the title defaults to
`"Book on {topic}"`, and when the Annotation line is absent the annotation
defaults to the empty string. -/
theorem metadata_labeled_parsing :
    generate_metadata "T" "Title: X\nAuthor: Y\nAnnotation: Z" =
      { title := "X", author := "Y", annot := "Z" } ∧
    (generate_metadata "T" "Title: X\nAnnotation: Z").author = "Author Not Specified" ∧
    (generate_metadata "T" "Author: Y\nAnnotation: Z").title = "Book on T" ∧
    (generate_metadata "T" "Title: X\nAuthor: Y").annot = "" := by decide

/-- C7 counterexample: the response consisting of the single unrecognized
line `"An unrecognized line"` leaves the returned annotation empty — the
line is dropped, not appended, because the running annotation is still
empty when it is scanned (the guard at line 193). -/
theorem metadata_orphan_line_dropped :
    (generate_metadata "T" "An unrecognized line").annot = "" ∧
    strStarts "An unrecognized line" "Title:" = false ∧
    strStarts "An unrecognized line" "Author:" = false ∧
    strStarts "An unrecognized line" "Annotation:" = false := by decide

/-- C7 amended: a line starting with no known field label is appended to the
running annotation (with a space separator, stripped) exactly when the
running annotation is already non-empty; while the annotation is empty such
lines are discarded.  The parse is a total function, so it never fails. -/
theorem metadata_unrecognized_append (m : Metadata) (line : String)
    (h1 : strStarts line "Title:" = false)
    (h2 : strStarts line "Author:" = false)
    (h3 : strStarts line "Annotation:" = false) :
    metadata_step m line =
      (if m.annot ≠ "" then { m with annot := m.annot ++ " " ++ strTrim line } else m) := by
  simp [metadata_step, h1, h2, h3]

/-- C7 witness: an unrecognized line is appended when the annotation is
already non-empty. -/
theorem metadata_unrecognized_append_witness :
    metadata_step { title := "t", author := "a", annot := "A" } "extra line" =
      (if ({ title := "t", author := "a", annot := "A" } : Metadata).annot ≠ "" then
        { ({ title := "t", author := "a", annot := "A" } : Metadata) with
            annot := ({ title := "t", author := "a", annot := "A" } : Metadata).annot
              ++ " " ++ strTrim "extra line" }
      else ({ title := "t", author := "a", annot := "A" } : Metadata)) :=
  metadata_unrecognized_append { title := "t", author := "a", annot := "A" }
    "extra line" (by decide) (by decide) (by decide)

/-- C1 counterexample: both outline requests succeed (non-empty responses),
yet for `num_chapters = 3` the first response yields one title and the
supplemental response yields only one more, so `generate_outline` returns 2
titles, not exactly 3. -/
theorem outline_exact_count_cex :
    ("A" : String) ≠ "" ∧ ("B" : String) ≠ "" ∧
      (generate_outline "T" 3 "A" "B").length ≠ 3 := by decide

/-- C1 amended: when both outline requests succeed, the first response's
non-blank lines are truncated to the first `num_chapters` if over-long, and
otherwise the supplemental response's non-blank lines are appended up to the
deficit; the result therefore has `min num_chapters (k1 + k2)` titles, where
`k1`, `k2` count the non-blank lines of the two responses — exactly
`num_chapters` whenever the two responses together yield at least that many
lines, fewer otherwise. -/
theorem outline_success_count (topic : String) (num_chapters : Nat)
    (resp1 resp2 : String) (h1 : resp1 ≠ "") (h2 : resp2 ≠ "") :
    generate_outline topic num_chapters resp1 resp2 =
      (if num_chapters ≤ (splitClean resp1).length then
        (splitClean resp1).take num_chapters
      else
        splitClean resp1 ++
          (splitClean resp2).take (num_chapters - (splitClean resp1).length)) ∧
    (generate_outline topic num_chapters resp1 resp2).length =
      min num_chapters ((splitClean resp1).length + (splitClean resp2).length) := by
  unfold generate_outline
  rw [if_pos h1]
  by_cases hgt : (splitClean resp1).length > num_chapters
  · rw [if_pos hgt, if_pos (by omega)]
    refine ⟨rfl, ?_⟩
    simp [List.length_take]
    omega
  · rw [if_neg hgt]
    by_cases hlt : (splitClean resp1).length < num_chapters
    · rw [if_pos hlt, if_pos h2, if_neg (by omega)]
      refine ⟨rfl, ?_⟩
      simp [List.length_take]
      omega
    · rw [if_neg hlt, if_pos (by omega)]
      have he : (splitClean resp1).length = num_chapters := by omega
      refine ⟨?_, ?_⟩
      · rw [← he, List.take_length]
      · omega

/-- C1 witness: two chapters from the first response, the deficit covered by
the supplemental response. -/
theorem outline_success_count_witness :
    generate_outline "T" 3 "A\nB" "C\nD" =
      (if 3 ≤ (splitClean "A\nB").length then (splitClean "A\nB").take 3
      else splitClean "A\nB" ++ (splitClean "C\nD").take (3 - (splitClean "A\nB").length)) ∧
    (generate_outline "T" 3 "A\nB" "C\nD").length =
      min 3 ((splitClean "A\nB").length + (splitClean "C\nD").length) :=
  outline_success_count "T" 3 "A\nB" "C\nD" (by decide) (by decide)

/-- C10: the outline never exceeds the requested chapter count (whatever the
two responses), a failed first request yields the empty outline, and the
same bound holds for the outline stage as executed inside `generate_book`. -/
theorem outline_length_bound :
    (∀ (topic : String) (num_chapters : Nat) (resp1 resp2 : String),
        (generate_outline topic num_chapters resp1 resp2).length ≤ num_chapters) ∧
    (∀ (topic : String) (num_chapters : Nat) (resp2 : String),
        generate_outline topic num_chapters "" resp2 = []) ∧
    (∀ (oracle : Nat → String) (topic : String) (num_chapters k : Nat),
        ((generate_outline_run oracle topic num_chapters k).1).length ≤ num_chapters) := by
  have hb : ∀ (topic : String) (num_chapters : Nat) (resp1 resp2 : String),
      (generate_outline topic num_chapters resp1 resp2).length ≤ num_chapters := by
    intro topic num_chapters resp1 resp2
    unfold generate_outline
    by_cases h1 : resp1 ≠ ""
    · rw [if_pos h1]
      by_cases hgt : (splitClean resp1).length > num_chapters
      · rw [if_pos hgt]
        simp [List.length_take]
      · rw [if_neg hgt]
        by_cases hlt : (splitClean resp1).length < num_chapters
        · rw [if_pos hlt]
          by_cases h2 : resp2 ≠ ""
          · rw [if_pos h2]
            simp [List.length_take]
            omega
          · rw [if_neg h2]
            omega
        · rw [if_neg hlt]
          omega
    · rw [if_neg h1]
      simp
  exact ⟨hb, fun _ _ _ => by simp [generate_outline],
    fun oracle topic num_chapters k => hb topic num_chapters _ _⟩

/-!
### Claims about the chapter loop
-/

/-- Unfolding equation for one chapter iteration. -/
theorem runChapters_cons (oracle : Nat → String) (t : String) (rest : List String)
    (prev : String) (k : Nat) :
    runChapters oracle (t :: rest) prev k =
      ((runChapter oracle t prev k).1 ::
        (runChapters oracle rest (runChapter oracle t prev k).1.summary
          (runChapter oracle t prev k).2).1,
       (runChapters oracle rest (runChapter oracle t prev k).1.summary
         (runChapter oracle t prev k).2).2) := rfl

/-- The structure-request argument of a chapter is the incoming summary. -/
theorem runChapter_structureArg (oracle : Nat → String) (t prev : String) (k : Nat) :
    (runChapter oracle t prev k).1.structureArg = prev := rfl

/-- The chapter loop produces one record per outline title. -/
theorem runChapters_length (oracle : Nat → String) (titles : List String) :
    ∀ (prev : String) (k : Nat),
      ((runChapters oracle titles prev k).1).length = titles.length := by
  induction titles with
  | nil => intro prev k; rfl
  | cons t rest ih =>
    intro prev k
    rw [runChapters_cons]
    simp [ih]

/-- The first chapter's structure-request argument is the loop's initial
summary value. -/
theorem runChapters_head (oracle : Nat → String) (t : String) (rest : List String)
    (prev : String) (k : Nat) :
    (((runChapters oracle (t :: rest) prev k).1).getD 0 dummyChapter).structureArg = prev := rfl

/-- The structure-request argument of chapter `i + 1` is exactly the summary
recorded for chapter `i`: the only state the loop carries across chapters. -/
theorem runChapters_chain (oracle : Nat → String) (titles : List String) :
    ∀ (prev : String) (k i : Nat), i + 1 < titles.length →
      (((runChapters oracle titles prev k).1).getD (i + 1) dummyChapter).structureArg =
        (((runChapters oracle titles prev k).1).getD i dummyChapter).summary := by
  induction titles with
  | nil => intro prev k i h; simp at h
  | cons t rest ih =>
    intro prev k i h
    rw [runChapters_cons]
    cases i with
    | zero =>
      cases rest with
      | nil => simp at h
      | cons t2 rest2 =>
        simp only [List.getD_cons_succ, List.getD_cons_zero]
        exact runChapters_head oracle t2 rest2 _ _
    | succ j =>
      simp only [List.getD_cons_succ]
      simp only [List.length_cons] at h
      exact ih _ _ j (by omega)

/-- C3: chapter 1's structure request is made with empty previous-summary
context, and the structure-request context of chapter `i + 1` is a function
of chapter `i`'s recorded summary alone: any two runs (over arbitrary
response oracles and request counters) of the same outline whose chapter-`i`
summaries agree issue identical structure-request contexts for chapter
`i + 1`. -/
theorem chapter_context_isolation :
    (∀ (o1 o2 : Nat → String) (titles : List String) (k1 k2 i : Nat),
        i + 1 < titles.length →
        (((runChapters o1 titles "" k1).1).getD i dummyChapter).summary =
          (((runChapters o2 titles "" k2).1).getD i dummyChapter).summary →
        structure_context
            ((((runChapters o1 titles "" k1).1).getD (i + 1) dummyChapter).structureArg) =
          structure_context
            ((((runChapters o2 titles "" k2).1).getD (i + 1) dummyChapter).structureArg)) ∧
    (∀ (oracle : Nat → String) (t : String) (rest : List String) (k : Nat),
        structure_context
          ((((runChapters oracle (t :: rest) "" k).1).getD 0 dummyChapter).structureArg) = "") := by
  constructor
  · intro o1 o2 titles k1 k2 i h hsum
    rw [runChapters_chain o1 titles "" k1 i h, runChapters_chain o2 titles "" k2 i h, hsum]
  · intro oracle t rest k
    rw [runChapters_head]
    rfl

/-- C3 witness: two runs of the two-chapter outline with different request
counters and equal chapter-1 summaries yield the same chapter-2 structure
context. -/
theorem chapter_context_isolation_witness :
    structure_context
        ((((runChapters (fun _ => "S") ["A", "B"] "" 0).1).getD 1 dummyChapter).structureArg) =
      structure_context
        ((((runChapters (fun _ => "S") ["A", "B"] "" 3).1).getD 1 dummyChapter).structureArg) :=
  chapter_context_isolation.1 (fun _ => "S") (fun _ => "S") ["A", "B"] 0 3 0
    (by decide) (by decide)

/-!
### Claims about the section loop's context windows
-/

/-- Unfolding equation for one section iteration. -/
theorem runSections_cons (oracle : Nat → String) (title sec : String) (rest : List String)
    (acc : String) (k : Nat) :
    runSections oracle title (sec :: rest) acc k =
      ({ ctxArg := previous_content_arg acc, text := oracle k } ::
        (runSections oracle title rest (acc ++ oracle k) (k + 1)).1,
       (runSections oracle title rest (acc ++ oracle k) (k + 1)).2) := rfl

/-- The orchestrator's `previous_content` argument never exceeds 1000
characters. -/
theorem previous_content_arg_length (a : String) :
    (previous_content_arg a).data.length ≤ 1000 := by
  unfold previous_content_arg
  by_cases h : a ≠ ""
  · rw [if_pos h, sliceLast_data_length]
    omega
  · rw [if_neg h]
    exact Nat.le_of_lt (by decide)

/-- In the section loop, the `previous_content` argument of the `j`-th
section call is computed, by line 399, from exactly the chapter text
accumulated so far: the initial accumulator followed by the texts of the
previous sections of the same chapter. -/
theorem runSections_ctxArg (oracle : Nat → String) (title : String) (sections : List String) :
    ∀ (acc : String) (k j : Nat), j < sections.length →
      (((runSections oracle title sections acc k).1).getD j dummySection).ctxArg =
        previous_content_arg
          (acc ++ strConcat ((((runSections oracle title sections acc k).1).take j).map
            (fun s => s.text))) := by
  induction sections with
  | nil => intro acc k j h; simp at h
  | cons sec rest ih =>
    intro acc k j h
    rw [runSections_cons]
    cases j with
    | zero =>
      simp only [List.getD_cons_zero, List.take_zero, List.map_nil]
      rw [show strConcat ([] : List String) = "" from rfl, String.append_empty]
    | succ j =>
      simp only [List.getD_cons_succ, List.take_succ_cons, List.map_cons]
      rw [show ∀ (s : String) (l : List String), strConcat (s :: l) = s ++ strConcat l
        from fun _ _ => rfl]
      rw [← String.append_assoc]
      simp only [List.length_cons] at h
      exact ih (acc ++ oracle k) (k + 1) j (by omega)

/-- C8: the text embedded as "previous content" in a section prompt is the
trailing at most 500 characters of the accumulated chapter text (a suffix of
it, empty for the first section of a chapter); the accumulated-text argument
the orchestrator passes into the call is itself the trailing at most 1000
characters of the text accumulated in the current chapter; and the
accumulator is restarted at `""` for every chapter. -/
theorem section_context_window :
    (∀ a : String, a ≠ "" →
        chunk_context (previous_content_arg a) =
          "Previous content: " ++ sliceLast a 500 ++ " (continuation)") ∧
    (∀ s : String, (sliceLast s 500).data.length ≤ 500 ∧
        List.IsSuffix (sliceLast s 500).data s.data) ∧
    (∀ a : String, (previous_content_arg a).data.length ≤ 1000) ∧
    previous_content_arg "" = "" ∧
    (∀ (oracle : Nat → String) (title : String) (sections : List String) (acc : String)
        (k j : Nat), j < sections.length →
        (((runSections oracle title sections acc k).1).getD j dummySection).ctxArg =
          previous_content_arg
            (acc ++ strConcat ((((runSections oracle title sections acc k).1).take j).map
              (fun s => s.text)))) ∧
    (∀ (oracle : Nat → String) (title previous_summary : String) (k : Nat),
        (runChapter oracle title previous_summary k).1.sectionRecords =
          (runSections oracle title
            (generate_chapter_structure title previous_summary (oracle k)) "" (k + 1)).1) := by
  refine ⟨?_, ?_, previous_content_arg_length, rfl, runSections_ctxArg, fun _ _ _ _ => rfl⟩
  · intro a ha
    unfold previous_content_arg
    rw [if_pos ha]
    unfold chunk_context
    rw [if_pos (sliceLast_ne_empty a ha), sliceLast_sliceLast]
  · intro s
    refine ⟨?_, sliceLast_suffix s 500⟩
    rw [sliceLast_data_length]
    omega

/-- C8 witness: the 500-character window over a concrete accumulator, and
the second section of a two-section chapter seeing exactly the first
section's text. -/
theorem section_context_window_witness :
    chunk_context (previous_content_arg "abc") =
      "Previous content: " ++ sliceLast "abc" 500 ++ " (continuation)" ∧
    (((runSections (fun _ => "body") "C" ["S1", "S2"] "" 0).1).getD 1 dummySection).ctxArg =
      previous_content_arg
        ("" ++ strConcat ((((runSections (fun _ => "body") "C" ["S1", "S2"] "" 0).1).take 1).map
          (fun s => s.text))) :=
  ⟨section_context_window.1 "abc" (by decide),
   section_context_window.2.2.2.2.1 (fun _ => "body") "C" ["S1", "S2"] "" 0 1 (by decide)⟩

/-!
### Claims about assembly and the full pipeline
-/

/-- The write sequence of lines 435-464 concatenates to exactly the five
document parts in their fixed order. -/
theorem assemble_parts (b : Book) :
    assemble b =
      titlePage b ++ introPart b ++ chaptersPart b ++ conclusionPart b ++ biblioPart b := by
  unfold assemble fullBookWrites titlePage introPart chaptersPart conclusionPart biblioPart
  rw [strConcat_append, strConcat_append, strConcat_append]
  simp only [strConcat, String.append_empty, String.append_assoc]

/-- Closed form of the bibliography numbering: entry `j` (0-based) of
`numberedRefs n refs` is numbered `n + j`. -/
theorem numberedRefs_enumFrom (n : Nat) (refs : List String) :
    numberedRefs n refs =
      (List.enumFrom n refs).map (fun p => toString p.1 ++ ". " ++ p.2 ++ "\n") := by
  induction refs generalizing n with
  | nil => rfl
  | cons r rest ih => simp [numberedRefs, List.enumFrom, ih]

/-- One chapter block per outline title when titles and texts align. -/
theorem chapterBlocks_length (i : Nat) (ts xs : List String) (h : ts.length = xs.length) :
    (chapterBlocks i ts xs).length = ts.length := by
  induction ts generalizing i xs with
  | nil => simp [chapterBlocks]
  | cons t ts ih =>
    cases xs with
    | nil => simp at h
    | cons x xs =>
      simp only [List.length_cons] at h
      simp [chapterBlocks, ih (i + 1) xs (by omega)]

/-- C9: assembly is a pure function of the `Book` value — every invocation
over unchanged inputs yields the same text — and that text is the
concatenation, in fixed order, of title page (title, author, annotation),
introduction, chapter blocks in outline order, conclusion, and the
bibliography with entries numbered consecutively from 1. -/
theorem assemble_fixed_order :
    (∀ b : Book, assemble b =
        titlePage b ++ introPart b ++ chaptersPart b ++ conclusionPart b ++ biblioPart b) ∧
    (∀ (n : Nat) (refs : List String),
        numberedRefs n refs =
          (List.enumFrom n refs).map (fun p => toString p.1 ++ ". " ++ p.2 ++ "\n")) :=
  ⟨assemble_parts, numberedRefs_enumFrom⟩

/-- C2: for every topic, chapter count and response oracle — including the
oracle on which every request fails — `generate_book` is a total function
whose run produces the full-book artifact containing, in order, the title
page, the introduction, one chapter block per outline title, the conclusion
and the bibliography; no stage failure can abort the pipeline because the
request layer absorbs all failures into the empty response. -/
theorem generate_book_always_completes (topic : String) (num_chapters : Nat)
    (oracle : Nat → String) :
    (generate_book topic num_chapters oracle).fullBook =
      titlePage (generate_book topic num_chapters oracle).book ++
        introPart (generate_book topic num_chapters oracle).book ++
        chaptersPart (generate_book topic num_chapters oracle).book ++
        conclusionPart (generate_book topic num_chapters oracle).book ++
        biblioPart (generate_book topic num_chapters oracle).book ∧
    (generate_book topic num_chapters oracle).chapterRecords.length =
      (generate_book topic num_chapters oracle).chapters.length ∧
    (generate_book topic num_chapters oracle).book.chapterTexts.length =
      (generate_book topic num_chapters oracle).book.chapterTitles.length ∧
    (chapterBlocks 1 (generate_book topic num_chapters oracle).book.chapterTitles
        (generate_book topic num_chapters oracle).book.chapterTexts).length =
      (generate_book topic num_chapters oracle).chapters.length := by
  have hrec : ∀ (titles : List String) (prev : String) (k : Nat),
      ((runChapters oracle titles prev k).1).length = titles.length :=
    runChapters_length oracle
  refine ⟨assemble_parts _, ?_, ?_, ?_⟩
  · simp only [generate_book, hrec]
  · simp only [generate_book, List.length_map, hrec]
  · simp only [generate_book, List.length_map]
    rw [chapterBlocks_length]
    rw [List.length_map, hrec]

end ScientificGenerator
